import Mathlib

/-!
Verification of the network-synchronization core of the time-coin wallet GUI
(`src/network.rs` and the bootstrap task in `src/main.rs`, as assembled by the
patch scripts in the repository).

The Rust code is shallowly embedded: network I/O outcomes are passed in as
explicit arguments (a deterministic status-source oracle for the per-peer
status requests, and the result of the one peer-discovery call), `u64` heights
become `Nat`, the `f32` sync progress becomes `Rat` (the program only ever
stores the exact constants 0.0 and 1.0 and compares with `>= 1.0`, so the
rational embedding is exact), and fallible Rust functions returning
`Result<T, String>` become `Except String T`.
-/

namespace TimeCoin

/-- A known peer endpoint, `struct Peer { address: String }` in `network.rs`;
the address is a `host:port` string. -/
structure Peer where
  address : String
deriving DecidableEq, Repr

/-- `BlockchainInfo` (the spec's ChainStatus): the parsed body of a successful
`GET /blockchain/info` response. -/
structure BlockchainInfo where
  height : Nat
  network : String
  best_block_hash : String
  total_supply : Nat
deriving DecidableEq, Repr

/-- Outcome of the one status request issued to a single peer, distinguishing
exactly the cases the `match` in `fetch_blockchain_info` distinguishes:
`send()` returned `Ok` with a success status and the body parsed (`ok`);
`send()` returned `Ok` with a success status but `json()` failed
(`parseError`); `send()` returned `Ok` with a non-success status
(`httpError`); `send()` returned `Err` — connection failure or the 5-second
timeout (`transportError`). -/
inductive PeerResponse where
  | ok (info : BlockchainInfo)
  | parseError (msg : String)
  | httpError (status : Nat)
  | transportError (msg : String)
deriving DecidableEq, Repr

/-- Whether a per-peer outcome is the success case of the `match`. -/
def PeerResponse.isOk : PeerResponse → Bool
  | .ok _ => true
  | _ => false

deriving instance DecidableEq for Except

/-- Rust `s.split(sep)` yields the fragment of `s` before the first occurrence
of `sep` as its first element (the whole of `s` when `sep` is absent), on the
character list. -/
def takeUntil (sep : Char) : List Char → List Char
  | [] => []
  | c :: cs => if c = sep then [] else c :: takeUntil sep cs

/-- `peer.address.split(':').next().unwrap_or(&peer.address)` in
`fetch_blockchain_info`: the prefix of the address before the first `':'`.
Rust `split` always yields at least one fragment, so `next()` is never `None`
and the `unwrap_or` default never fires. -/
def splitFirst (sep : Char) (s : String) : String :=
  String.mk (takeUntil sep s.data)

/-- `format!("http://{}:24101/blockchain/info", peer_ip)`: the status-query
URL derived from a peer's address — the extracted host re-combined with the
fixed status port 24101 baked into the format string. -/
def statusUrl (p : Peer) : String :=
  "http://" ++ splitFirst ':' p.address ++ ":24101/blockchain/info"

/-- The error string `fetch_blockchain_info` returns when the peer loop
exhausts the registry without a success. -/
def noPeersRespondedMsg : String := "No peers responded with blockchain info"

/-- `fetch_blockchain_info` (the spec's `fetchChainStatus`) from
`fix_peer_query.py`: iterate `connected_peers` in order; for each peer derive
the status URL from the peer's host and the fixed port 24101 and issue one GET
with a 5-second timeout; return the first response that arrives, has a success
status and parses; on any per-peer failure `continue` to the next peer; after
the loop, fail with `noPeersRespondedMsg`.

`net` is the deterministic status-source double (spec §9 `StatusSource`): the
outcome of the one request made to each peer. Local construction of the
`reqwest` client is deterministic and assumed to succeed. Besides the Rust
function's `Result`, the embedding also returns the trace of status URLs
actually requested, in request order, so that claims about which peers are
contacted are statable. -/
def fetch_blockchain_info (net : Peer → PeerResponse) :
    List Peer → Except String BlockchainInfo × List String
  | [] => (.error noPeersRespondedMsg, [])
  | p :: rest =>
    match net p with
    | .ok info => (.ok info, [statusUrl p])
    | _ =>
      let r := fetch_blockchain_info net rest
      (r.1, statusUrl p :: r.2)

/-- `NetworkManager` from `network.rs` (fields as patched by
`fix_network_methods.py`): the spec's SyncState plus the configured API
endpoint. `sync_progress` is `f32` in the code; it only ever holds the exact
constants 0.0 and 1.0, embedded as `Rat`. -/
structure NetworkManager where
  api_endpoint : String
  connected_peers : List Peer
  is_syncing : Bool
  sync_progress : Rat
  current_block_height : Nat
  network_block_height : Nat
deriving DecidableEq, Repr

/-- `NetworkManager::new` from `fix_network_methods.py`: empty registry, not
syncing, zero progress, both heights 0. -/
def NetworkManager.new (api_endpoint : String) : NetworkManager where
  api_endpoint := api_endpoint
  connected_peers := []
  is_syncing := false
  sync_progress := 0
  current_block_height := 0
  network_block_height := 0

/-- Modelled from the spec: `add_peer` is called by `bootstrap` in
`fix_sync_logic.py` but its definition is not among the repository's source
fragments. Spec §4.1: on discovery failure "each configured bootstrap address
is added to the registry verbatim, in input order, with no validation beyond
syntactic well-formedness" — modelled as appending a `Peer` with exactly that
address to `connected_peers`. -/
def NetworkManager.add_peer (m : NetworkManager) (node : String) : NetworkManager :=
  { m with connected_peers := m.connected_peers ++ [⟨node⟩] }

/-- The registry update performed by the first half of `bootstrap`
(`fix_sync_logic.py`): on discovery success the registry is replaced wholesale
by the fetched list; on discovery failure each bootstrap node is `add_peer`ed
in input order. `disc` is the result of the one `fetch_peers` call (its body
is peer-discovery I/O, passed in as a value). -/
def NetworkManager.apply_discovery (m : NetworkManager)
    (disc : Except String (List Peer)) (bootstrap_nodes : List String) : NetworkManager :=
  match disc with
  | .ok peers => { m with connected_peers := peers }
  | .error _ => bootstrap_nodes.foldl (fun acc node => acc.add_peer node) m

/-- `bootstrap` in its final patched form (`fix_sync_logic.py` for the
discovery half, `fix_missing_api.py` / `debug_peer_query.py` for the
chain-status half): populate the registry from discovery or fallback, then try
`fetch_blockchain_info`. On fetch success set both heights to `info.height`,
`is_syncing = false`, `sync_progress = 1.0`. On fetch failure set
`is_syncing = false`, `sync_progress = 1.0` and both heights to the 0 sentinel
("connected but height unknown"). Both branches fall through to `Ok(())`. -/
def NetworkManager.bootstrap (m : NetworkManager)
    (disc : Except String (List Peer)) (net : Peer → PeerResponse)
    (bootstrap_nodes : List String) : NetworkManager × Except String Unit :=
  let m1 := m.apply_discovery disc bootstrap_nodes
  match (fetch_blockchain_info net m1.connected_peers).1 with
  | .ok info =>
    ({ m1 with
        network_block_height := info.height
        current_block_height := info.height
        is_syncing := false
        sync_progress := 1 }, .ok ())
  | .error _ =>
    ({ m1 with
        is_syncing := false
        sync_progress := 1
        current_block_height := 0
        network_block_height := 0 }, .ok ())

/-- `refresh_blockchain_state` from `fix_sync_logic.py`: error out immediately
on an empty registry; otherwise re-run only `fetch_blockchain_info` against the
existing registry; on success set both heights to `info.height`,
`is_syncing = false`, `sync_progress = 1.0`; on failure return the error and
touch nothing. -/
def NetworkManager.refresh_blockchain_state (m : NetworkManager)
    (net : Peer → PeerResponse) : NetworkManager × Except String Unit :=
  if m.connected_peers.isEmpty then
    (m, .error "No peers connected")
  else
    match (fetch_blockchain_info net m.connected_peers).1 with
    | .ok info =>
      ({ m with
          network_block_height := info.height
          current_block_height := info.height
          is_syncing := false
          sync_progress := 1 }, .ok ())
    | .error e => (m, .error ("Failed to refresh blockchain: " ++ e))

/-- `is_synced` from `fix_sync_logic.py`:
`!self.is_syncing && self.sync_progress >= 1.0 && self.current_block_height > 0`. -/
def NetworkManager.is_synced (m : NetworkManager) : Bool :=
  !m.is_syncing && decide (1 ≤ m.sync_progress) && decide (0 < m.current_block_height)

/-- Cumulative effect of a run of critical sections on the shared
`Arc<Mutex<NetworkManager>>`: apply each locked mutation in order. -/
def applyWrites (s0 : NetworkManager) (ws : List (NetworkManager → NetworkManager)) :
    NetworkManager :=
  ws.foldl (fun s u => u s) s0

/-- The locked mutations of the shared `Arc<Mutex<NetworkManager>>` performed
by the spawned bootstrap task in its final form (`final_fix.py`): the initial
critical section only reads `api_endpoint` and mutates nothing; `bootstrap`
then runs on a local `temp_net` with the lock released (the lock is never held
across an await); the sole mutation is the single wholesale assignment
`*net = temp_net` inside one critical section on success, and none on failure.
Each list element is the effect of one critical section on the shared state. -/
def bootstrapTaskWrites (api : String) (disc : Except String (List Peer))
    (net : Peer → PeerResponse) (nodes : List String) :
    List (NetworkManager → NetworkManager) :=
  let temp := (NetworkManager.new api).bootstrap disc net nodes
  match temp.2 with
  | .ok _ => [fun _ => temp.1]
  | .error _ => []

/-- The shared states a presentation-reader snapshot can observe while the
bootstrap task runs: the reader takes the same lock, so a snapshot happens
between critical sections, never inside one — i.e. after some prefix of the
writer's critical sections. -/
def observableStates (s0 : NetworkManager)
    (ws : List (NetworkManager → NetworkManager)) : List NetworkManager :=
  (List.range (ws.length + 1)).map (fun n => applyWrites s0 (ws.take n))

/-! Concrete fixtures used by the witness theorems: the spec §8 example
registry `[A, B, C]` where A times out, B returns height 1000 and C is never
contacted. -/

/-- Example registry from spec §8. -/
def peersW : List Peer := [⟨"10.0.0.1:24100"⟩, ⟨"10.0.0.2:24100"⟩, ⟨"10.0.0.3:24100"⟩]

/-- The status B reports in the spec §8 example. -/
def infoW : BlockchainInfo :=
  { height := 1000, network := "test", best_block_hash := "deadbeef", total_supply := 5 }

/-- Status-source double for the spec §8 example: A times out, B succeeds,
any other peer is unreachable. -/
def netW : Peer → PeerResponse := fun p =>
  if p.address = "10.0.0.1:24100" then .transportError "timed out"
  else if p.address = "10.0.0.2:24100" then .ok infoW
  else .transportError "connection refused"

/-- A previously synced manager holding the spec §8 registry at height 900,
used by the refresh witnesses. -/
def mgrW : NetworkManager where
  api_endpoint := "https://time-coin.io/api"
  connected_peers := peersW
  is_syncing := false
  sync_progress := 1
  current_block_height := 900
  network_block_height := 900

/-! ### Helper lemmas -/

/-- Unfolding `fetch_blockchain_info` on a peer whose request succeeds: the
loop returns that peer's status immediately, having requested only it. -/
theorem fetch_cons_ok (net : Peer → PeerResponse) (p : Peer) (rest : List Peer)
    (info : BlockchainInfo) (h : net p = .ok info) :
    fetch_blockchain_info net (p :: rest) = (.ok info, [statusUrl p]) := by
  simp [fetch_blockchain_info, h]

/-- Unfolding `fetch_blockchain_info` on a peer whose request fails in any of
the three failure modes: the loop records the request and continues with the
remaining peers, keeping their result. -/
theorem fetch_cons_fail (net : Peer → PeerResponse) (p : Peer) (rest : List Peer)
    (h : (net p).isOk = false) :
    fetch_blockchain_info net (p :: rest) =
      ((fetch_blockchain_info net rest).1,
        statusUrl p :: (fetch_blockchain_info net rest).2) := by
  cases hp : net p <;> simp [PeerResponse.isOk, hp] at h ⊢ <;>
    simp [fetch_blockchain_info, hp]

/-- `bootstrap` never touches the registry after the discovery phase. -/
theorem bootstrap_connected_peers (m : NetworkManager)
    (disc : Except String (List Peer)) (net : Peer → PeerResponse)
    (nodes : List String) :
    (m.bootstrap disc net nodes).1.connected_peers
      = (m.apply_discovery disc nodes).connected_peers := by
  unfold NetworkManager.bootstrap
  cases h : (fetch_blockchain_info net (m.apply_discovery disc nodes).connected_peers).1 <;>
    simp [h]

/-- Folding `add_peer` over a node list appends one verbatim `Peer` per node,
in input order. -/
theorem foldl_add_peer (nodes : List String) (m : NetworkManager) :
    (nodes.foldl (fun acc node => acc.add_peer node) m).connected_peers
      = m.connected_peers ++ nodes.map Peer.mk := by
  induction nodes generalizing m with
  | nil => simp
  | cons n ns ih =>
    rw [List.foldl_cons, ih]
    simp [NetworkManager.add_peer]

/-- Both branches of `bootstrap` leave equal heights behind. -/
theorem bootstrap_heights_eq (m : NetworkManager)
    (disc : Except String (List Peer)) (net : Peer → PeerResponse)
    (nodes : List String) :
    (m.bootstrap disc net nodes).1.current_block_height
      = (m.bootstrap disc net nodes).1.network_block_height := by
  unfold NetworkManager.bootstrap
  cases h : (fetch_blockchain_info net (m.apply_discovery disc nodes).connected_peers).1 <;>
    simp [h]

/-- `takeUntil` leaves a list without the separator unchanged. -/
theorem takeUntil_of_not_mem (sep : Char) (l : List Char) (h : sep ∉ l) :
    takeUntil sep l = l := by
  induction l with
  | nil => rfl
  | cons c cs ih =>
    have hc : ¬c = sep := fun hc => h (hc ▸ List.mem_cons_self c cs)
    have hcs : sep ∉ cs := fun hm => h (List.mem_cons_of_mem c hm)
    simp [takeUntil, hc, ih hcs]

/-- `takeUntil` cuts exactly at the first separator. -/
theorem takeUntil_append (sep : Char) (h t : List Char) (hh : sep ∉ h) :
    takeUntil sep (h ++ sep :: t) = h := by
  induction h with
  | nil => simp [takeUntil]
  | cons c cs ih =>
    have hc : ¬c = sep := fun hc => hh (hc ▸ List.mem_cons_self c cs)
    have hcs : sep ∉ cs := fun hm => hh (List.mem_cons_of_mem c hm)
    simp [takeUntil, hc, ih hcs]

/-- With no critical section run yet, the only observable state is the initial
one. -/
theorem observableStates_nil (s0 : NetworkManager) :
    observableStates s0 [] = [s0] := by
  simp [observableStates, applyWrites]

/-- With a single critical section, the observable states are the initial one
and the fully written one. -/
theorem observableStates_single (s0 : NetworkManager)
    (f : NetworkManager → NetworkManager) :
    observableStates s0 [f] = [s0, f s0] := by
  simp [observableStates, applyWrites, List.range_succ]

/-! ### Claim theorems -/

/-- C1: on any non-empty registry, `fetch_blockchain_info` iterates peers in
registry order; if every peer before index `k` fails (timeout, transport
error, non-success status, or malformed body) and peer `k`'s response
completes with a success status and parses, the call returns peer `k`'s parsed
status, and the requests issued are exactly those to peers `0..k` — no request
is ever made to a later peer. -/
theorem fetch_first_success (net : Peer → PeerResponse) (peers : List Peer)
    (k : Nat) (hk : k < peers.length) (info : BlockchainInfo)
    (hfail : ∀ j, (hj : j < peers.length) → j < k → (net (peers.get ⟨j, hj⟩)).isOk = false)
    (hok : net (peers.get ⟨k, hk⟩) = .ok info) :
    (fetch_blockchain_info net peers).1 = .ok info ∧
    (fetch_blockchain_info net peers).2 = (peers.take (k + 1)).map statusUrl := by
  induction peers generalizing k with
  | nil => exact absurd hk (Nat.not_lt_zero k)
  | cons p rest ih =>
    cases k with
    | zero =>
      simp at hok
      rw [fetch_cons_ok net p rest info hok]
      simp
    | succ k =>
      have hp : (net p).isOk = false := by
        have := hfail 0 (Nat.succ_pos rest.length) (Nat.succ_pos k)
        simpa using this
      have hk2 : k < rest.length := Nat.lt_of_succ_lt_succ hk
      have hfail2 : ∀ j, (hj : j < rest.length) → j < k →
          (net (rest.get ⟨j, hj⟩)).isOk = false := by
        intro j hj hjk
        have := hfail (j + 1) (Nat.succ_lt_succ hj) (Nat.succ_lt_succ hjk)
        simpa using this
      have hok2 : net (rest.get ⟨k, hk2⟩) = .ok info := by
        simpa using hok
      have hrec := ih k hk2 hfail2 hok2
      rw [fetch_cons_fail net p rest hp]
      exact ⟨hrec.1, by simp [hrec.2]⟩

/-- Witness for C1: the spec §8 example — registry `[A, B, C]`, A times out,
B returns height 1000; the fetch returns B's status having requested only A's
and B's status URLs, never C's. -/
theorem fetch_first_success_witness :
    (fetch_blockchain_info netW peersW).1 = .ok infoW ∧
    (fetch_blockchain_info netW peersW).2 = (peersW.take 2).map statusUrl :=
  fetch_first_success netW peersW 1 (by decide) infoW (by decide) (by decide)

/-- C2: when the chain-status fetch inside `bootstrap` succeeds with a status
of height `info.height`, the resulting state has
`current_block_height = network_block_height = info.height`,
`is_syncing = false` and `sync_progress = 1.0`, and `bootstrap` returns
`Ok(())`. -/
theorem bootstrap_success_state (m : NetworkManager)
    (disc : Except String (List Peer)) (net : Peer → PeerResponse)
    (nodes : List String) (info : BlockchainInfo)
    (hfetch : (fetch_blockchain_info net
        (m.apply_discovery disc nodes).connected_peers).1 = .ok info) :
    (m.bootstrap disc net nodes).1.current_block_height = info.height ∧
    (m.bootstrap disc net nodes).1.network_block_height = info.height ∧
    (m.bootstrap disc net nodes).1.is_syncing = false ∧
    (m.bootstrap disc net nodes).1.sync_progress = 1 ∧
    (m.bootstrap disc net nodes).2 = .ok () := by
  unfold NetworkManager.bootstrap
  simp [hfetch]

/-- Witness for C2: bootstrapping a fresh manager with discovery returning the
spec §8 registry, where peer B answers with height 1000. -/
theorem bootstrap_success_state_witness :
    ((NetworkManager.new "https://time-coin.io/api").bootstrap
        (.ok peersW) netW []).1.current_block_height = infoW.height ∧
    ((NetworkManager.new "https://time-coin.io/api").bootstrap
        (.ok peersW) netW []).1.network_block_height = infoW.height ∧
    ((NetworkManager.new "https://time-coin.io/api").bootstrap
        (.ok peersW) netW []).1.is_syncing = false ∧
    ((NetworkManager.new "https://time-coin.io/api").bootstrap
        (.ok peersW) netW []).1.sync_progress = 1 ∧
    ((NetworkManager.new "https://time-coin.io/api").bootstrap
        (.ok peersW) netW []).2 = .ok () :=
  bootstrap_success_state (NetworkManager.new "https://time-coin.io/api")
    (.ok peersW) netW [] infoW (by decide)

/-- C3: `is_synced` returns true exactly when `is_syncing` is false, the sync
progress is at least 1.0 and the current height is positive; in particular it
is false whenever `current_block_height = 0`, whatever the other fields. -/
theorem is_synced_iff (m : NetworkManager) :
    (m.is_synced = true ↔
      m.is_syncing = false ∧ 1 ≤ m.sync_progress ∧ 0 < m.current_block_height) ∧
    (m.current_block_height = 0 → m.is_synced = false) := by
  constructor
  · simp [NetworkManager.is_synced, Bool.and_eq_true, Bool.not_eq_true']
    tauto
  · intro h
    simp [NetworkManager.is_synced, h]

/-- Witness for C3: a state with zero height but `is_syncing = false` and
progress 1.0 (a bootstrap whose fetch failed) is reported not synced, and the
iff holds on it. -/
theorem is_synced_iff_witness :
    (((NetworkManager.new "api").bootstrap (.error "down")
          (fun _ => .transportError "unreachable") ["10.0.0.1:24100"]).1.is_synced = true ↔
      ((NetworkManager.new "api").bootstrap (.error "down")
          (fun _ => .transportError "unreachable") ["10.0.0.1:24100"]).1.is_syncing = false ∧
      1 ≤ ((NetworkManager.new "api").bootstrap (.error "down")
          (fun _ => .transportError "unreachable") ["10.0.0.1:24100"]).1.sync_progress ∧
      0 < ((NetworkManager.new "api").bootstrap (.error "down")
          (fun _ => .transportError "unreachable") ["10.0.0.1:24100"]).1.current_block_height) ∧
    (((NetworkManager.new "api").bootstrap (.error "down")
          (fun _ => .transportError "unreachable") ["10.0.0.1:24100"]).1.current_block_height = 0 →
      ((NetworkManager.new "api").bootstrap (.error "down")
          (fun _ => .transportError "unreachable") ["10.0.0.1:24100"]).1.is_synced = false) :=
  is_synced_iff (((NetworkManager.new "api").bootstrap (.error "down")
    (fun _ => .transportError "unreachable") ["10.0.0.1:24100"]).1)

/-- C4 counterexample: a bootstrap whose discovery and fetch both fail, run
from a fresh manager whose `sync_progress` is 0.0, does not hold
`sync_progress` at its prior value — the code assigns 1.0 in the failure
branch, so the field changes from 0 to 1. -/
theorem bootstrap_failure_progress_cex :
    ((NetworkManager.new "api").bootstrap (.error "discovery down")
        (fun _ => .transportError "unreachable") []).1.sync_progress
      ≠ (NetworkManager.new "api").sync_progress ∧
    ((NetworkManager.new "api").bootstrap (.error "discovery down")
        (fun _ => .transportError "unreachable") []).1.sync_progress = 1 := by
  decide

/-- C4 as amended: when the chain-status fetch inside `bootstrap` fails, the
resulting state has `is_syncing = false`, `sync_progress` set to 1.0 (not held
at its prior value), both heights set to the 0 sentinel for an unknown height,
and `bootstrap` still returns `Ok(())` rather than an error. -/
theorem bootstrap_failure_state (m : NetworkManager)
    (disc : Except String (List Peer)) (net : Peer → PeerResponse)
    (nodes : List String) (e : String)
    (hfetch : (fetch_blockchain_info net
        (m.apply_discovery disc nodes).connected_peers).1 = .error e) :
    (m.bootstrap disc net nodes).1.is_syncing = false ∧
    (m.bootstrap disc net nodes).1.sync_progress = 1 ∧
    (m.bootstrap disc net nodes).1.current_block_height = 0 ∧
    (m.bootstrap disc net nodes).1.network_block_height = 0 ∧
    (m.bootstrap disc net nodes).2 = .ok () := by
  unfold NetworkManager.bootstrap
  simp [hfetch]

/-- Witness for C4: a fresh manager bootstrapped with failed discovery, one
fallback node and an unreachable network ends disconnected-but-ok. -/
theorem bootstrap_failure_state_witness :
    ((NetworkManager.new "api").bootstrap (.error "down")
        (fun _ => .transportError "unreachable") ["10.0.0.1:24100"]).1.is_syncing = false ∧
    ((NetworkManager.new "api").bootstrap (.error "down")
        (fun _ => .transportError "unreachable") ["10.0.0.1:24100"]).1.sync_progress = 1 ∧
    ((NetworkManager.new "api").bootstrap (.error "down")
        (fun _ => .transportError "unreachable") ["10.0.0.1:24100"]).1.current_block_height = 0 ∧
    ((NetworkManager.new "api").bootstrap (.error "down")
        (fun _ => .transportError "unreachable") ["10.0.0.1:24100"]).1.network_block_height = 0 ∧
    ((NetworkManager.new "api").bootstrap (.error "down")
        (fun _ => .transportError "unreachable") ["10.0.0.1:24100"]).2 = .ok () :=
  bootstrap_failure_state (NetworkManager.new "api") (.error "down")
    (fun _ => .transportError "unreachable") ["10.0.0.1:24100"]
    noPeersRespondedMsg (by decide)

/-- C5 counterexample: on an empty registry `fetch_blockchain_info` fails with
exactly the same error value it produces when peers exist but are all
exhausted — the string `noPeersRespondedMsg` — so no distinct
`NoPeersAvailable` error exists for the empty case. -/
theorem empty_registry_error_cex :
    (fetch_blockchain_info (fun _ => .transportError "unreachable") []).1
      = (fetch_blockchain_info (fun _ => .transportError "unreachable")
          [⟨"10.0.0.9:24100"⟩]).1 ∧
    (fetch_blockchain_info (fun _ => .transportError "unreachable") []).1
      = .error noPeersRespondedMsg := by
  decide

/-- C5 as amended: `fetch_blockchain_info` on an empty registry fails
immediately, issuing no request at all, but with the same
"No peers responded with blockchain info" error that is produced when peers
exist and all are exhausted — there is no distinct `NoPeersAvailable` error. -/
theorem empty_registry_fails_without_request (net : Peer → PeerResponse) :
    (fetch_blockchain_info net []).1 = .error noPeersRespondedMsg ∧
    (fetch_blockchain_info net []).2 = [] := by
  simp [fetch_blockchain_info]

/-- C6: starting from a fresh manager, a bootstrap whose discovery fails
leaves the registry holding exactly one verbatim `Peer` per configured
fallback node, in input order; a bootstrap whose discovery succeeds replaces
the registry wholesale with the discovered list, never unioning it with the
fallback nodes. -/
theorem bootstrap_registry_fallback (api e : String) (nodes : List String)
    (peers : List Peer) (net : Peer → PeerResponse) :
    ((NetworkManager.new api).bootstrap (.error e) net nodes).1.connected_peers
        = nodes.map Peer.mk ∧
    ((NetworkManager.new api).bootstrap (.ok peers) net nodes).1.connected_peers
        = peers := by
  constructor
  · rw [bootstrap_connected_peers]
    simp [NetworkManager.apply_discovery, foldl_add_peer, NetworkManager.new]
  · rw [bootstrap_connected_peers]
    simp [NetworkManager.apply_discovery]

/-- C7: `refresh_blockchain_state` only re-runs the chain-status fetch against
the existing registry — the registry itself is never changed; on fetch success
it sets both heights to the fetched height with `is_syncing = false` and
`sync_progress = 1.0` and returns `Ok(())`; whenever it returns an error (empty
registry or fetch failure) every field of the state is exactly as before the
call. -/
theorem refresh_fetch_only (m : NetworkManager) (net : Peer → PeerResponse) :
    ((m.refresh_blockchain_state net).1.connected_peers = m.connected_peers) ∧
    (∀ info : BlockchainInfo, m.connected_peers ≠ [] →
      (fetch_blockchain_info net m.connected_peers).1 = .ok info →
      (m.refresh_blockchain_state net).1 =
        { m with
            current_block_height := info.height
            network_block_height := info.height
            is_syncing := false
            sync_progress := 1 } ∧
      (m.refresh_blockchain_state net).2 = .ok ()) ∧
    (∀ e : String, (m.refresh_blockchain_state net).2 = .error e →
      (m.refresh_blockchain_state net).1 = m) := by
  refine ⟨?_, ?_, ?_⟩
  · unfold NetworkManager.refresh_blockchain_state
    by_cases h : m.connected_peers.isEmpty
    · simp [h]
    · cases hf : (fetch_blockchain_info net m.connected_peers).1 <;> simp [h, hf]
  · intro info hne hf
    unfold NetworkManager.refresh_blockchain_state
    have h : m.connected_peers.isEmpty = false := by
      simpa using hne
    simp [h, hf]
  · intro e he
    unfold NetworkManager.refresh_blockchain_state at he ⊢
    by_cases h : m.connected_peers.isEmpty
    · simp [h]
    · cases hf : (fetch_blockchain_info net m.connected_peers).1 <;>
        simp [h, hf] at he ⊢

/-- Witness for C7: refreshing the synced `mgrW` against the spec §8 network
moves both heights to 1000, and refreshing a fresh manager (empty registry,
so the call errors) leaves it untouched. -/
theorem refresh_fetch_only_witness :
    ((mgrW.refresh_blockchain_state netW).1 =
        { mgrW with
            current_block_height := infoW.height
            network_block_height := infoW.height
            is_syncing := false
            sync_progress := 1 } ∧
      (mgrW.refresh_blockchain_state netW).2 = .ok ()) ∧
    ((NetworkManager.new "api").refresh_blockchain_state netW).1
      = NetworkManager.new "api" :=
  ⟨(refresh_fetch_only mgrW netW).2.1 infoW (by decide) (by decide),
   (refresh_fetch_only (NetworkManager.new "api") netW).2.2
      "No peers connected" (by decide)⟩

/-- C8: every URL `fetch_blockchain_info` requests is the status URL of some
peer of the registry, formed from the extracted host and the fixed status port
24101; the extracted host is the prefix of the peer's address before the first
`':'` — so a `host:port` address contributes `host` and its listed port is
never used — and an address without `':'` is used whole. -/
theorem status_url_fixed_port (net : Peer → PeerResponse) (peers : List Peer)
    (url : String) (hurl : url ∈ (fetch_blockchain_info net peers).2) :
    (∃ p ∈ peers,
      url = "http://" ++ splitFirst ':' p.address ++ ":24101/blockchain/info") ∧
    (∀ host port : String, ':' ∉ host.data →
      splitFirst ':' (host ++ ":" ++ port) = host) ∧
    (∀ a : String, ':' ∉ a.data → splitFirst ':' a = a) := by
  refine ⟨?_, ?_, ?_⟩
  · induction peers with
    | nil => simp [fetch_blockchain_info] at hurl
    | cons p rest ih =>
      by_cases hp : (net p).isOk = true
      · obtain ⟨info, hinfo⟩ : ∃ info, net p = .ok info := by
          cases hnp : net p <;> simp [PeerResponse.isOk, hnp] at hp ⊢
        rw [fetch_cons_ok net p rest info hinfo] at hurl
        simp at hurl
        exact ⟨p, by simp, by rw [hurl, statusUrl]⟩
      · rw [fetch_cons_fail net p rest (by simpa using hp)] at hurl
        simp at hurl
        rcases hurl with hurl | hurl
        · exact ⟨p, by simp, by rw [hurl, statusUrl]⟩
        · obtain ⟨q, hq, hqu⟩ := ih hurl
          exact ⟨q, by simp [hq], hqu⟩
  · intro host port hh
    unfold splitFirst
    have hdata : (host ++ ":" ++ port).data = host.data ++ ':' :: port.data := by
      simp [String.data_append]
    rw [hdata, takeUntil_append ':' host.data port.data hh]
  · intro a ha
    unfold splitFirst
    rw [takeUntil_of_not_mem ':' a.data ha]

/-- Witness for C8: in the spec §8 run, peer A's requested URL keeps host
10.0.0.1 and uses port 24101, not A's listed port 24100; and the two host
extraction facts hold at host 10.0.0.1 / port 24100. -/
theorem status_url_fixed_port_witness :
    (∃ p ∈ peersW,
      "http://10.0.0.1:24101/blockchain/info"
        = "http://" ++ splitFirst ':' p.address ++ ":24101/blockchain/info") ∧
    (∀ host port : String, ':' ∉ host.data →
      splitFirst ':' (host ++ ":" ++ port) = host) ∧
    (∀ a : String, ':' ∉ a.data → splitFirst ':' a = a) :=
  status_url_fixed_port netW peersW
    "http://10.0.0.1:24101/blockchain/info" (by decide)

/-- C9: while the background bootstrap task of `final_fix.py` runs, any state
a locked presentation snapshot can observe — the shared state after some
prefix of the writer's critical sections — has equal current and network
heights whenever the initial shared state did; no snapshot ever shows
`network_block_height ≠ current_block_height` after a successful fetch,
because all network work happens on a local `temp_net` without the lock and
the shared state is replaced in one single locked assignment. -/
theorem no_torn_snapshot (api : String) (disc : Except String (List Peer))
    (net : Peer → PeerResponse) (nodes : List String) (s0 s : NetworkManager)
    (h0 : s0.current_block_height = s0.network_block_height)
    (hs : s ∈ observableStates s0 (bootstrapTaskWrites api disc net nodes)) :
    s.current_block_height = s.network_block_height := by
  have hw : bootstrapTaskWrites api disc net nodes = [] ∨
      bootstrapTaskWrites api disc net nodes =
        [fun _ => ((NetworkManager.new api).bootstrap disc net nodes).1] := by
    unfold bootstrapTaskWrites
    cases hb : ((NetworkManager.new api).bootstrap disc net nodes).2 <;> simp [hb]
  rcases hw with hw | hw <;> rw [hw] at hs
  · rw [observableStates_nil] at hs
    simp at hs
    rw [hs]
    exact h0
  · rw [observableStates_single] at hs
    simp at hs
    rcases hs with hs | hs
    · rw [hs]
      exact h0
    · rw [hs]
      exact bootstrap_heights_eq _ _ _ _

/-- Witness for C9: in the spec §8 run the reader can observe the post-write
state, and its two heights agree. -/
theorem no_torn_snapshot_witness :
    ((NetworkManager.new "api").bootstrap (.ok peersW) netW []).1.current_block_height
      = ((NetworkManager.new "api").bootstrap (.ok peersW) netW []).1.network_block_height :=
  no_torn_snapshot "api" (.ok peersW) netW [] (NetworkManager.new "api")
    (((NetworkManager.new "api").bootstrap (.ok peersW) netW []).1)
    (by decide) (by decide)

/-- C10: every operation preserves
`current_block_height = network_block_height`: the constructor starts both at
0; `bootstrap` always leaves them equal (the fetched height on success, 0 on
fetch failure); `refresh_blockchain_state` keeps them equal (the fetched
height on success, unchanged on failure) — so no reachable state shows a
partially-caught-up view. -/
theorem heights_always_equal :
    (∀ api : String, (NetworkManager.new api).current_block_height
        = (NetworkManager.new api).network_block_height) ∧
    (∀ (m : NetworkManager) (disc : Except String (List Peer))
        (net : Peer → PeerResponse) (nodes : List String),
      (m.bootstrap disc net nodes).1.current_block_height
        = (m.bootstrap disc net nodes).1.network_block_height) ∧
    (∀ (m : NetworkManager) (net : Peer → PeerResponse),
      m.current_block_height = m.network_block_height →
      (m.refresh_blockchain_state net).1.current_block_height
        = (m.refresh_blockchain_state net).1.network_block_height) := by
  refine ⟨fun api => rfl, fun m disc net nodes => bootstrap_heights_eq m disc net nodes, ?_⟩
  intro m net h
  unfold NetworkManager.refresh_blockchain_state
  by_cases he : m.connected_peers.isEmpty
  · simp [he, h]
  · cases hf : (fetch_blockchain_info net m.connected_peers).1 <;> simp [he, hf, h]

/-- Witness for C10: the refresh conjunct applied to the synced `mgrW`, whose
heights are equal, keeps them equal after a successful refresh. -/
theorem heights_always_equal_witness :
    (mgrW.refresh_blockchain_state netW).1.current_block_height
      = (mgrW.refresh_blockchain_state netW).1.network_block_height :=
  heights_always_equal.2.2 mgrW netW (by decide)

end TimeCoin
